import Mathlib

/-!
Verification of the filter-and-plot pipeline of the data-visualization app
(`filter_manager.py`, `scatter_plot_manager.py`, `data_generator.py`).

Modelling conventions:
* A pandas cell value is `Value`: a rational number (floats modelled as exact
  rationals), a string, or `missing` (NaN).
* A dataframe row is an association list from column names to values; a
  dataframe is a list of rows (list position = pandas integer index).
* The Python `re` engine (used through `Series.str.contains(pattern,
  case=False, regex=True, na=False)`) is modelled for the fragment actually
  exercised by the application: literal characters, `.`, character classes
  `[...]` with ranges and `^`-negation, and backslash escapes.  Patterns using
  constructs outside this fragment (quantifiers, groups, alternation,
  anchors), as well as genuinely malformed patterns such as an unterminated
  class, are rejected by `parseRegex` (returning `none`), matching the
  `re.error` path of `_apply_filters` on the malformed ones.
  Matching is case-insensitive substring search (`re.search` + `IGNORECASE`),
  as performed by `str.contains`.
-/

set_option maxRecDepth 20000
set_option maxHeartbeats 2000000

/-- A cell value of the dataframe: numeric (floats modelled as rationals),
string, or missing (NaN). -/
inductive Value where
  | num (q : ℚ)
  | str (s : String)
  | missing
deriving DecidableEq

/-- A dataframe row: association list from column name to cell value. -/
abbrev Row := List (String × Value)

/-- Look up a column's value in a row (missing column modelled as NaN; the
application only ever filters on columns present in the dataframe). -/
def getVal (r : Row) (c : String) : Value :=
  (List.lookup c r).getD Value.missing

/-- `astype(str)` conversion of a cell value: pandas stringifies NaN to the
literal string "nan".  (The exact float formatting of numeric cells is not
depended on by any claim; text filters are used on string columns.) -/
def valueToStr : Value → String
  | .num q => toString q.num ++ "/" ++ toString q.den
  | .str s => s
  | .missing => "nan"

/-- One item inside a regex character class: a single character or a range. -/
inductive RItem where
  | single (c : Char)
  | range (lo hi : Char)
deriving DecidableEq

/-- A regex atom of the modelled fragment: literal character, `.` wildcard,
or a character class with optional negation. -/
inductive RAtom where
  | lit (c : Char)
  | anyChar
  | cls (neg : Bool) (items : List RItem)
deriving DecidableEq

/-- Characters that begin regex constructs outside the modelled fragment
(quantifiers, groups, alternation, anchors, counted repeats). -/
def unsupportedMeta (c : Char) : Bool :=
  c == '*' || c == '+' || c == '?' || c == '(' || c == ')' ||
  c == '|' || c == '^' || c == '$' || c == '{' || c == '}'

/-- Resolve a backslash escape to an atom (`\d`, `\D`, `\s`, `\S`, `\w`,
`\W`, `\n`, `\t`, `\r`, or an escaped punctuation character); escapes outside
the fragment give `none`. -/
def escapeAtom (c : Char) : Option RAtom :=
  if c == 'd' then some (.cls false [.range '0' '9'])
  else if c == 'D' then some (.cls true [.range '0' '9'])
  else if c == 'w' then some (.cls false [.range 'a' 'z', .range 'A' 'Z', .range '0' '9', .single '_'])
  else if c == 'W' then some (.cls true [.range 'a' 'z', .range 'A' 'Z', .range '0' '9', .single '_'])
  else if c == 's' then some (.cls false [.single ' ', .single '\t', .single '\n', .single '\r', .single '\x0b', .single '\x0c'])
  else if c == 'S' then some (.cls true [.single ' ', .single '\t', .single '\n', .single '\r', .single '\x0b', .single '\x0c'])
  else if c == 'n' then some (.lit '\n')
  else if c == 't' then some (.lit '\t')
  else if c == 'r' then some (.lit '\r')
  else if c.isAlphanum then none
  else some (.lit c)

/-- Parse the body of a character class, returning the items and the input
remaining after the closing `]`; `none` on an unterminated class or a bad
range (mirrors `re.error`). -/
def parseClassBody : List Char → Option (List RItem × List Char)
  | [] => none
  | ']' :: rest => some ([], rest)
  | c :: '-' :: d :: rest =>
    if d = ']' then some ([.single c, .single '-'], rest)
    else if c.val ≤ d.val then
      (parseClassBody rest).map (fun p => (.range c d :: p.1, p.2))
    else none
  | c :: rest => (parseClassBody rest).map (fun p => (.single c :: p.1, p.2))

/-- Fuelled parser for the modelled regex fragment (fuel is structural so the
parser reduces by computation; `parseRegex` supplies sufficient fuel). -/
def parseToksF : ℕ → List Char → Option (List RAtom)
  | 0, _ => none
  | _ + 1, [] => some []
  | fuel + 1, c :: rest =>
    if c = '[' then
      match rest with
      | '^' :: rest' =>
        match parseClassBody rest' with
        | none => none
        | some ([], _) => none
        | some (its, r) => (parseToksF fuel r).map (.cls true its :: ·)
      | _ =>
        match parseClassBody rest with
        | none => none
        | some ([], _) => none
        | some (its, r) => (parseToksF fuel r).map (.cls false its :: ·)
    else if c = '\\' then
      match rest with
      | [] => none
      | e :: rest' =>
        match escapeAtom e with
        | none => none
        | some a => (parseToksF fuel rest').map (a :: ·)
    else if c = '.' then (parseToksF fuel rest).map (.anyChar :: ·)
    else if unsupportedMeta c then none
    else (parseToksF fuel rest).map (.lit c :: ·)

/-- Compile a regex pattern (the `re.compile` performed inside
`Series.str.contains`); `none` models `re.error`. -/
def parseRegex (s : String) : Option (List RAtom) :=
  parseToksF (s.data.length + 1) s.data

/-- Case-insensitive membership test of a character in one class item
(`re.IGNORECASE` semantics: either case form may fall in a range). -/
def itemMatch (c : Char) : RItem → Bool
  | .single a => a.toLower == c.toLower
  | .range lo hi =>
    (lo.val ≤ c.val && c.val ≤ hi.val) ||
    (lo.val ≤ c.toLower.val && c.toLower.val ≤ hi.val) ||
    (lo.val ≤ c.toUpper.val && c.toUpper.val ≤ hi.val)

/-- Case-insensitive match of one regex atom against one character
(`.` does not match a newline, as in Python without `DOTALL`). -/
def charMatchAtom : RAtom → Char → Bool
  | .lit l, c => l.toLower == c.toLower
  | .anyChar, c => c != '\n'
  | .cls neg items, c =>
    let m := items.any (itemMatch c)
    if neg then !m else m

/-- Does the atom sequence match a prefix of the character list? -/
def regexMatchHere : List RAtom → List Char → Bool
  | [], _ => true
  | _ :: _, [] => false
  | a :: ts, c :: cs => charMatchAtom a c && regexMatchHere ts cs

/-- `re.search` semantics: does the atom sequence match starting at any
position of the character list (substring search, not full match)? -/
def regexSearch (re : List RAtom) : List Char → Bool
  | [] => regexMatchHere re []
  | c :: cs => regexMatchHere re (c :: cs) || regexSearch re cs

/-- An active filter's kind and current widget value (`_create_filter_widget`
seeds these; `_apply_filters` consumes them): numeric range slider,
categorical multi-select, or text regex input. -/
inductive FilterKind where
  | numeric (lo hi : ℚ)
  | categorical (sel : List Value)
  | text (pattern : String)
deriving DecidableEq

/-- One pass of the `_apply_filters` loop body: apply a single column's
active filter to the current dataframe.  Mirrors the three branches of
`FilterManager._apply_filters` (`filter_manager.py` lines 306-336), including
the skip of an empty categorical selection, the skip of an empty text
pattern, and the `re.error` no-op. -/
def applyOne (d : List Row) (f : String × FilterKind) : List Row :=
  match f.2 with
  | .numeric lo hi =>
    d.filter (fun r => match getVal r f.1 with
      | .num q => decide (lo ≤ q) && decide (q ≤ hi)
      | _ => false)
  | .categorical sel =>
    if sel.isEmpty then d
    else d.filter (fun r => sel.contains (getVal r f.1))
  | .text p =>
    if p = "" then d
    else match parseRegex p with
      | none => d
      | some re => d.filter (fun r => regexSearch re (valueToStr (getVal r f.1)).data)

/-- `FilterManager._apply_filters`: start from a copy of the original data
and fold every active filter over it. -/
def applyFilters (fs : List (String × FilterKind)) (d : List Row) : List Row :=
  fs.foldl applyOne d

/-- The per-row predicate equivalent of one filter (used to state order
independence: each loop pass is a pure row-wise boolean mask). -/
def rowPasses (f : String × FilterKind) (r : Row) : Bool :=
  match f.2 with
  | .numeric lo hi =>
    match getVal r f.1 with
    | .num q => decide (lo ≤ q) && decide (q ≤ hi)
    | _ => false
  | .categorical sel => sel.isEmpty || sel.contains (getVal r f.1)
  | .text p =>
    if p = "" then true
    else match parseRegex p with
      | none => true
      | some re => regexSearch re (valueToStr (getVal r f.1)).data

/-- `FilterManager._add_filter`: no-op unless the column name is truthy and
not already filtered; otherwise the new filter is registered at the end of
the (insertion-ordered) registry. -/
def addFilter (c : String) (k : FilterKind) (fs : List (String × FilterKind)) :
    List (String × FilterKind) :=
  if c ≠ "" ∧ ¬ (fs.any (fun q => q.1 == c)) = true then fs ++ [(c, k)] else fs

/-- `FilterManager._remove_filter`: delete the column's registry entry if
present, otherwise a no-op. -/
def removeFilter (c : String) (fs : List (String × FilterKind)) :
    List (String × FilterKind) :=
  if (fs.any (fun q => q.1 == c)) = true then fs.eraseP (fun q => q.1 == c) else fs

/-- Minimum of a pandas numeric series (values of the size column over the
rows being plotted); `Series.min` of an empty/degenerate series never enables
the normalization branch, so the empty default is irrelevant. -/
def seriesMin : List ℚ → ℚ
  | [] => 0
  | x :: xs => xs.foldl min x

/-- Maximum of a pandas numeric series. -/
def seriesMax : List ℚ → ℚ
  | [] => 0
  | x :: xs => xs.foldl max x

/-- The per-point size computed by `ScatterPlotManager.create_plot` (lines
198-208): min-max normalize over the current view, raise to the gamma
exponent, and rescale linearly into `[min_size, max_size]`.  Float
arithmetic is modelled over the reals (`^` is `Real.rpow`). -/
noncomputable def sizeFormula (vmin vmax : ℚ) (g minS maxS : ℝ) (v : ℚ) : ℝ :=
  minS + (((v : ℝ) - (vmin : ℝ)) / ((vmax : ℝ) - (vmin : ℝ))) ^ g * (maxS - minS)

/-- The size-mapping stage of `ScatterPlotManager.create_plot`: `sizes` stays
`None` unless a size column is selected, exists in the data, is numeric, and
its values over the current view are not all equal (`max_val > min_val`);
only then is each value normalized via `sizeFormula`.  `vals` are the size
column's values over the rows being plotted (the current view after dropping
rows with missing x/y), so normalization is over the view, not the full
dataset. -/
noncomputable def computeSizes (sizeCol : Option String) (dataCols : List String)
    (isNum : Bool) (vals : List ℚ) (g minS maxS : ℝ) : Option (List ℝ) :=
  match sizeCol with
  | none => none
  | some c =>
    if c ∈ dataCols then
      if isNum then
        if seriesMin vals < seriesMax vals then
          some (vals.map (sizeFormula (seriesMin vals) (seriesMax vals) g minS maxS))
        else none
      else none
    else none

/-- The `size` entry of the holoviews options dict: the string `'size'`
(a reference to the `size` value dimension) whenever a size column is
selected, and the fixed number 10 otherwise
(`scatter_plot_manager.py` line 226: `'size': 'size' if size_col else 10`). -/
inductive SizeOption where
  | dimRef (d : String)
  | fixed (n : ℕ)
deriving DecidableEq

/-- `'size' if size_col else 10` from the plot options of `create_plot`. -/
def sizeOptValue : Option String → SizeOption
  | some _ => .dimRef "size"
  | none => .fixed 10

/-- Pandas dtype classification as used by `update_options`: numeric,
object (strings), or other (e.g. datetime64). -/
inductive Dtype where
  | numeric
  | obj
  | datetime
deriving DecidableEq, BEq

/-- Schema information for one dataframe column: its name, dtype, and number
of distinct values in the current view. -/
structure ColInfo where
  name : String
  dtype : Dtype
  nunique : ℕ
deriving DecidableEq

/-- The data handed to `update_options`: emptiness flag plus per-column
schema info. -/
structure DataInfo where
  isEmpty : Bool
  cols : List ColInfo
deriving DecidableEq

/-- `data.select_dtypes(include=[np.number]).columns.tolist()`. -/
def numericCols (d : DataInfo) : List String :=
  (d.cols.filter (fun c => c.dtype == Dtype.numeric)).map (·.name)

/-- `[col for col in data.columns if data[col].dtype == 'object' or
data[col].nunique() < 10]`. -/
def categoricalCols (d : DataInfo) : List String :=
  (d.cols.filter (fun c => c.dtype == Dtype.obj || c.nunique < 10)).map (·.name)

/-- `axis_cols = numeric_cols + [col for col in categorical_cols if
data[col].nunique() < 10]`. -/
def axisCols (d : DataInfo) : List String :=
  numericCols d ++
    (d.cols.filter (fun c => (c.dtype == Dtype.obj || c.nunique < 10) && c.nunique < 10)).map (·.name)

/-- The selector state of `ScatterPlotManager`: the remembered default
columns (`self.x_column` etc., `None` until a default is assigned), the
widget values (`self.x_selector.value` etc., which the user's own edits
change), and the widget option lists. -/
structure PlotState where
  xColumn : Option String
  yColumn : Option String
  sizeColumn : Option String
  colorColumn : Option String
  xVal : Option String
  yVal : Option String
  sizeVal : Option String
  colorVal : Option String
  xOptions : List String
  yOptions : List String
  sizeOptions : List (Option String)
  colorOptions : List (Option String)
deriving DecidableEq

/-- `ScatterPlotManager.update_options` (lines 121-151): return unchanged on
empty data; otherwise refresh the four option lists, then assign first-time
defaults for x (first axis column) and y (second axis column) only when the
remembered column is still `None`.  No branch ever resets a remembered
column to `None`, and the size/color values are never assigned here. -/
def updateOptions (st : PlotState) (d : DataInfo) : PlotState :=
  if d.isEmpty then st
  else
    let ax := axisCols d
    let st1 := { st with
      xOptions := ax
      yOptions := ax
      sizeOptions := none :: (numericCols d).map some
      colorOptions := none :: ((numericCols d ++ categoricalCols d).map some) }
    let st2 :=
      if st1.xColumn = none then
        match ax with
        | [] => st1
        | a :: _ => { st1 with xVal := some a, xColumn := some a }
      else st1
    if st2.yColumn = none then
      match ax with
      | _ :: b :: _ => { st2 with yVal := some b, yColumn := some b }
      | _ => st2
    else st2

/-- Zero-pad a natural number to four digits (`f"{i:04d}"` for the row
indices of the generated dataset). -/
def pad4 (i : ℕ) : String :=
  let s := toString i
  String.mk (List.replicate (4 - s.length) '0') ++ s

/-- `product_name` column of `generate_example_data`:
`f"Product_{i:04d}"`. -/
def productName (i : ℕ) : String := "Product_" ++ pad4 i

/-- `description` column of `generate_example_data`:
`f"Description for product {i}"`. -/
def descriptionText (i : ℕ) : String := "Description for product " ++ toString i

/-- The deterministic text columns of the `n`-row generated example dataset
(`data_generator.py` lines 27-28).  The remaining columns are drawn from
numpy's seeded random generators (library code, not modelled); the text
filter of the regression scenario reads only `product_name`, so they cannot
affect which rows pass. -/
def exampleRows (n : ℕ) : List Row :=
  (List.range n).map (fun i =>
    [("product_name", Value.str (productName i)),
     ("description", Value.str (descriptionText i))])

/-! ### Structural lemmas about the filter pipeline -/

theorem applyFilters_nil (d : List Row) : applyFilters [] d = d := rfl

theorem applyFilters_cons (f : String × FilterKind) (fs : List (String × FilterKind))
    (d : List Row) : applyFilters (f :: fs) d = applyFilters fs (applyOne d f) := rfl

/-- Each pass of the `_apply_filters` loop is a row-wise boolean mask. -/
theorem applyOne_eq_filter (d : List Row) (f : String × FilterKind) :
    applyOne d f = d.filter (fun r => rowPasses f r) := by
  obtain ⟨c, k⟩ := f
  cases k with
  | numeric lo hi => rfl
  | categorical sel =>
    by_cases h : sel.isEmpty <;> simp [applyOne, rowPasses, h]
  | text p =>
    by_cases hp : p = ""
    · simp [applyOne, rowPasses, hp]
    · cases hre : parseRegex p <;> simp [applyOne, rowPasses, hp, hre]

/-- `_apply_filters` computes the conjunction of all per-row predicates. -/
theorem applyFilters_eq_filter (fs : List (String × FilterKind)) (d : List Row) :
    applyFilters fs d = d.filter (fun r => fs.all (fun f => rowPasses f r)) := by
  induction fs generalizing d with
  | nil => simp [applyFilters]
  | cons f fs ih =>
    rw [applyFilters_cons, ih, applyOne_eq_filter, List.filter_filter]
    exact List.filter_congr (fun r _ => by simp [List.all_cons, Bool.and_comm])

theorem applyFilters_sublist (fs : List (String × FilterKind)) (d : List Row) :
    (applyFilters fs d).Sublist d := by
  rw [applyFilters_eq_filter]; exact List.filter_sublist d

/-- `List.all` only depends on membership, hence is permutation-invariant. -/
theorem perm_all_eq {α : Type _} {l₁ l₂ : List α} (h : l₁.Perm l₂) (p : α → Bool) :
    l₁.all p = l₂.all p := by
  have key : ∀ a b : Bool, (a = true ↔ b = true) → a = b := by decide
  apply key
  simp only [List.all_eq_true]
  exact ⟨fun hh x hx => hh x (h.mem_iff.mpr hx), fun hh x hx => hh x (h.mem_iff.mp hx)⟩

/-- Scanning search succeeds exactly when the atoms match at some start
position (substring semantics of `re.search`). -/
theorem regexSearch_eq_true_iff (re : List RAtom) (s : List Char) :
    regexSearch re s = true ↔ ∃ i, regexMatchHere re (List.drop i s) = true := by
  induction s with
  | nil =>
    constructor
    · intro h; exact ⟨0, h⟩
    · rintro ⟨i, h⟩; simpa [List.drop_nil] using h
  | cons a as ih =>
    rw [show regexSearch re (a :: as) = (regexMatchHere re (a :: as) || regexSearch re as) from rfl,
      Bool.or_eq_true, ih]
    constructor
    · rintro (h | ⟨i, h⟩)
      · exact ⟨0, h⟩
      · exact ⟨i + 1, h⟩
    · rintro ⟨i, h⟩
      cases i with
      | zero => exact Or.inl h
      | succ i => exact Or.inr ⟨i, h⟩

/-! ### Claim theorems -/

/-- C1: for every dataset and every set of active filter specifications, the
Filtered View produced by recompute is a subset (indeed an in-order sublist)
of the original Dataset's rows, and recomputing with zero active filters
yields the full Dataset. -/
theorem spec_c1_filtered_view_subset (fs : List (String × FilterKind)) (d : List Row) :
    (applyFilters fs d).Sublist d ∧ applyFilters fs d ⊆ d ∧ applyFilters [] d = d :=
  ⟨applyFilters_sublist fs d, (applyFilters_sublist fs d).subset, rfl⟩

/-- Witness for C1 at a concrete dataset and filter set. -/
theorem spec_c1_witness :
    (applyFilters [("price", FilterKind.numeric 0 10)] [[("price", Value.num 5)]]).Sublist
      [[("price", Value.num 5)]] ∧
    applyFilters [("price", FilterKind.numeric 0 10)] [[("price", Value.num 5)]] ⊆
      [[("price", Value.num 5)]] ∧
    applyFilters [] [[("price", Value.num 5)]] = [[("price", Value.num 5)]] :=
  spec_c1_filtered_view_subset [("price", FilterKind.numeric 0 10)] [[("price", Value.num 5)]]

/-- C2: applying the active filters in any permuted order during recompute
yields the identical row list: each pass is a pure row predicate and the
result is the conjunction of all of them. -/
theorem spec_c2_order_independent (fs₁ fs₂ : List (String × FilterKind)) (d : List Row)
    (h : fs₁.Perm fs₂) : applyFilters fs₁ d = applyFilters fs₂ d := by
  rw [applyFilters_eq_filter, applyFilters_eq_filter]
  exact List.filter_congr (fun r _ => perm_all_eq h _)

/-- Witness for C2: swapping a numeric and a text filter leaves the
recomputed view unchanged. -/
theorem spec_c2_witness :
    applyFilters [("a", FilterKind.numeric 0 1), ("b", FilterKind.text "x")]
      [[("a", Value.num 0), ("b", Value.str "xy")]] =
    applyFilters [("b", FilterKind.text "x"), ("a", FilterKind.numeric 0 1)]
      [[("a", Value.num 0), ("b", Value.str "xy")]] :=
  spec_c2_order_independent _ _ _
    (List.Perm.swap ("b", FilterKind.text "x") ("a", FilterKind.numeric 0 1) [])

/-- C9: an active categorical filter whose current selection is empty is
skipped entirely by recompute (`if selected_values:` in `_apply_filters`):
every row passes it and the view equals the result of the remaining filters
alone. -/
theorem spec_c9_empty_selection_skipped (c : String) (fs₁ fs₂ : List (String × FilterKind))
    (d : List Row) :
    applyOne d (c, FilterKind.categorical []) = d ∧
    applyFilters (fs₁ ++ (c, FilterKind.categorical []) :: fs₂) d =
      applyFilters (fs₁ ++ fs₂) d := by
  refine ⟨rfl, ?_⟩
  show List.foldl applyOne d (fs₁ ++ (c, FilterKind.categorical []) :: fs₂) =
    List.foldl applyOne d (fs₁ ++ fs₂)
  rw [List.foldl_append, List.foldl_append, List.foldl_cons]
  rfl

/-- C6: a non-empty text pattern that fails to compile is treated by
recompute as a non-filtering no-op: every row passes that filter and the
remaining filters still apply, with no failure. -/
theorem spec_c6_invalid_regex_noop (p c : String) (fs₁ fs₂ : List (String × FilterKind))
    (d : List Row) (r : Row) (h : parseRegex p = none) :
    rowPasses (c, FilterKind.text p) r = true ∧
    applyFilters (fs₁ ++ (c, FilterKind.text p) :: fs₂) d = applyFilters (fs₁ ++ fs₂) d := by
  have hp : p ≠ "" := by
    intro he; rw [he] at h; exact absurd h (by decide)
  have hmid : ∀ d' : List Row, applyOne d' (c, FilterKind.text p) = d' := by
    intro d'; simp [applyOne, hp, h]
  constructor
  · simp [rowPasses, hp, h]
  · show List.foldl applyOne d (fs₁ ++ (c, FilterKind.text p) :: fs₂) =
      List.foldl applyOne d (fs₁ ++ fs₂)
    rw [List.foldl_append, List.foldl_append, List.foldl_cons, hmid]

/-- Witness for C6: the unterminated class `[` fails to compile; the filter
on it passes every row and drops out of the pipeline. -/
theorem spec_c6_witness :
    rowPasses ("name", FilterKind.text "[") [("name", Value.str "abc")] = true ∧
    applyFilters ([("price", FilterKind.numeric 0 1)] ++ ("name", FilterKind.text "[") :: [])
      [[("name", Value.str "abc"), ("price", Value.num 2)]] =
    applyFilters ([("price", FilterKind.numeric 0 1)] ++ [])
      [[("name", Value.str "abc"), ("price", Value.num 2)]] :=
  spec_c6_invalid_regex_noop "[" "name" [("price", FilterKind.numeric 0 1)] []
    [[("name", Value.str "abc"), ("price", Value.num 2)]] [("name", Value.str "abc")]
    (by decide)

/-- C10 counterexample: a row whose value is missing (NaN) CAN match a text
filter, because `astype(str)` stringifies NaN to "nan" before
`str.contains` runs (its `na=False` argument never applies): the pattern
"nan" keeps the missing-valued row. -/
theorem spec_c10_counterexample :
    getVal [("desc", Value.missing)] "desc" = Value.missing ∧
    applyOne [[("desc", Value.missing)]] ("desc", FilterKind.text "nan") =
      [[("desc", Value.missing)]] := by
  exact ⟨rfl, by decide⟩

/-- C10 (amended): for a non-empty compilable pattern, a row passes the text
filter exactly when the compiled pattern matches, case-insensitively, at
some start position (substring search, not a full-string match) of the
row's value converted to a string; a missing value is converted to the
string "nan" (and therefore matches whenever the pattern matches "nan"). -/
theorem spec_c10_amended (p : String) (re : List RAtom) (c : String) (d : List Row)
    (s : List Char) (hp : p ≠ "") (hre : parseRegex p = some re) :
    applyOne d (c, FilterKind.text p) =
      d.filter (fun r => regexSearch re (valueToStr (getVal r c)).data) ∧
    (regexSearch re s = true ↔ ∃ i, regexMatchHere re (List.drop i s) = true) ∧
    valueToStr Value.missing = "nan" := by
  refine ⟨?_, regexSearch_eq_true_iff re s, rfl⟩
  simp [applyOne, hp, hre]

/-- Witness for C10 (amended) at the pattern "nan" against the value
"Banana" (a case-insensitive substring match). -/
theorem spec_c10_witness :
    applyOne [[("desc", Value.str "Banana")]] ("desc", FilterKind.text "nan") =
      ([[("desc", Value.str "Banana")]] : List Row).filter
        (fun r => regexSearch [RAtom.lit 'n', RAtom.lit 'a', RAtom.lit 'n']
          (valueToStr (getVal r "desc")).data) ∧
    (regexSearch [RAtom.lit 'n', RAtom.lit 'a', RAtom.lit 'n'] "Banana".data = true ↔
      ∃ i, regexMatchHere [RAtom.lit 'n', RAtom.lit 'a', RAtom.lit 'n']
        (List.drop i "Banana".data) = true) ∧
    valueToStr Value.missing = "nan" :=
  spec_c10_amended "nan" [RAtom.lit 'n', RAtom.lit 'a', RAtom.lit 'n'] "desc"
    [[("desc", Value.str "Banana")]] "Banana".data (by decide) (by decide)

/-- C7 counterexample: if the column already carries an active filter, the
add is a silent no-op, so adding then removing does NOT restore the pre-add
view: the pre-existing text filter (which excluded the only row) is deleted
and the recomputed view gains the row back. -/
theorem spec_c7_counterexample :
    applyFilters
        (removeFilter "c" (addFilter "c" (FilterKind.numeric 0 0)
          [("c", FilterKind.text "x")]))
        [[("c", Value.str "y")]] ≠
      applyFilters [("c", FilterKind.text "x")] [[("c", Value.str "y")]] := by
  decide

/-- Removing the appended registry entry for a previously unfiltered column
recovers the original registry. -/
theorem eraseP_append_key (c : String) (k : FilterKind) :
    ∀ fs : List (String × FilterKind), (∀ q ∈ fs, q.1 ≠ c) →
      List.eraseP (fun q => q.1 == c) (fs ++ [(c, k)]) = fs := by
  intro fs
  induction fs with
  | nil => intro _; simp
  | cons f fs ih =>
    intro h
    have hf : (f.1 == c) = false :=
      beq_eq_false_iff_ne.mpr (h f (List.mem_cons_self f fs))
    show List.eraseP (fun q => q.1 == c) (f :: (fs ++ [(c, k)])) = f :: fs
    rw [List.eraseP_cons, hf, Bool.cond_false,
      ih (fun q hq => h q (List.mem_cons_of_mem f hq))]

/-- C7 (amended): for a column with no active filter yet, adding a filter on
it and then removing it restores exactly the pre-add recomputed view (the
add appends the entry, the remove erases exactly it). -/
theorem spec_c7_amended (c : String) (k : FilterKind) (fs : List (String × FilterKind))
    (d : List Row) (hc : c ≠ "") (h : ∀ q ∈ fs, q.1 ≠ c) :
    applyFilters (removeFilter c (addFilter c k fs)) d = applyFilters fs d := by
  have hany : ¬ (fs.any (fun q => q.1 == c)) = true := by
    intro hcon
    obtain ⟨q, hq, hbeq⟩ := List.any_eq_true.mp hcon
    exact h q hq (by simpa using hbeq)
  have hadd : addFilter c k fs = fs ++ [(c, k)] := by
    rw [addFilter, if_pos ⟨hc, hany⟩]
  have hanyT : ((fs ++ [(c, k)]).any (fun q => q.1 == c)) = true := by
    simp [List.any_append]
  have hrem : removeFilter c (fs ++ [(c, k)]) = fs := by
    rw [removeFilter, if_pos hanyT, eraseP_append_key c k fs h]
  rw [hadd, hrem]

/-- Witness for C7 (amended): add a quantity filter next to a region filter
and remove it again; the recomputed view is the pre-add one. -/
theorem spec_c7_witness :
    applyFilters
        (removeFilter "quantity" (addFilter "quantity" (FilterKind.numeric 0 100)
          [("region", FilterKind.categorical [Value.str "North"])]))
        [[("region", Value.str "North"), ("quantity", Value.num 5)]] =
      applyFilters [("region", FilterKind.categorical [Value.str "North"])]
        [[("region", Value.str "North"), ("quantity", Value.num 5)]] :=
  spec_c7_amended "quantity" (FilterKind.numeric 0 100)
    [("region", FilterKind.categorical [Value.str "North"])]
    [[("region", Value.str "North"), ("quantity", Value.num 5)]]
    (by decide) (by decide)

/-- C8 counterexample: the user's x selection "price" no longer exists in
the new view (whose only axis column is "rating"), yet `update_options`
neither reverts the selector to unset nor re-defaults it: both the widget
value and the remembered column keep the stale "price".  No branch of
`update_options` ever resets a remembered column to `None`. -/
theorem spec_c8_counterexample :
    "price" ∉ axisCols ⟨false, [⟨"rating", Dtype.numeric, 50⟩]⟩ ∧
    (updateOptions
        ⟨some "price", some "rating", none, none,
         some "price", some "rating", none, none,
         ["price", "rating"], ["price", "rating"], [none], [none]⟩
        ⟨false, [⟨"rating", Dtype.numeric, 50⟩]⟩).xVal = some "price" ∧
    (updateOptions
        ⟨some "price", some "rating", none, none,
         some "price", some "rating", none, none,
         ["price", "rating"], ["price", "rating"], [none], [none]⟩
        ⟨false, [⟨"rating", Dtype.numeric, 50⟩]⟩).xColumn = some "price" ∧
    axisCols ⟨false, [⟨"rating", Dtype.numeric, 50⟩]⟩ = ["rating"] := by
  decide

/-- C8 (amended): once the x and y selectors have been set (by first default
or left from a user override), a schema refresh via `update_options` never
changes any selector value through automatic defaulting — even when the
chosen column no longer exists in the view — and the size/color selector
values are never touched by `update_options` at all. -/
theorem spec_c8_amended (st : PlotState) (d : DataInfo) (cx cy : String)
    (hx : st.xColumn = some cx) (hy : st.yColumn = some cy) :
    (updateOptions st d).xVal = st.xVal ∧
    (updateOptions st d).yVal = st.yVal ∧
    (updateOptions st d).xColumn = st.xColumn ∧
    (updateOptions st d).yColumn = st.yColumn ∧
    (updateOptions st d).sizeVal = st.sizeVal ∧
    (updateOptions st d).colorVal = st.colorVal := by
  by_cases hd : d.isEmpty = true <;>
    simp [updateOptions, hd, hx, hy]

/-- Witness for C8 (amended) at a concrete selector state and view. -/
theorem spec_c8_witness :
    (updateOptions
        ⟨some "price", some "rating", none, none,
         some "quantity", some "rating", none, none,
         ["price", "rating", "quantity"], ["price", "rating", "quantity"], [none], [none]⟩
        ⟨false, [⟨"rating", Dtype.numeric, 50⟩, ⟨"region", Dtype.obj, 4⟩]⟩).xVal =
      some "quantity" ∧
    (updateOptions
        ⟨some "price", some "rating", none, none,
         some "quantity", some "rating", none, none,
         ["price", "rating", "quantity"], ["price", "rating", "quantity"], [none], [none]⟩
        ⟨false, [⟨"rating", Dtype.numeric, 50⟩, ⟨"region", Dtype.obj, 4⟩]⟩).yVal =
      some "rating" ∧
    (updateOptions
        ⟨some "price", some "rating", none, none,
         some "quantity", some "rating", none, none,
         ["price", "rating", "quantity"], ["price", "rating", "quantity"], [none], [none]⟩
        ⟨false, [⟨"rating", Dtype.numeric, 50⟩, ⟨"region", Dtype.obj, 4⟩]⟩).xColumn =
      some "price" ∧
    (updateOptions
        ⟨some "price", some "rating", none, none,
         some "quantity", some "rating", none, none,
         ["price", "rating", "quantity"], ["price", "rating", "quantity"], [none], [none]⟩
        ⟨false, [⟨"rating", Dtype.numeric, 50⟩, ⟨"region", Dtype.obj, 4⟩]⟩).yColumn =
      some "rating" ∧
    (updateOptions
        ⟨some "price", some "rating", none, none,
         some "quantity", some "rating", none, none,
         ["price", "rating", "quantity"], ["price", "rating", "quantity"], [none], [none]⟩
        ⟨false, [⟨"rating", Dtype.numeric, 50⟩, ⟨"region", Dtype.obj, 4⟩]⟩).sizeVal =
      none ∧
    (updateOptions
        ⟨some "price", some "rating", none, none,
         some "quantity", some "rating", none, none,
         ["price", "rating", "quantity"], ["price", "rating", "quantity"], [none], [none]⟩
        ⟨false, [⟨"rating", Dtype.numeric, 50⟩, ⟨"region", Dtype.obj, 4⟩]⟩).colorVal =
      none :=
  spec_c8_amended _ _ "price" "rating" rfl rfl

/-- C3 counterexample: with a numeric size column selected whose values over
the view are all equal, the normalization branch is skipped (no division by
zero), but the plot options do NOT apply a fixed default size: the `size`
option is the string reference to the (never created) `size` dimension; the
fixed size 10 is used only when no size column is selected. -/
theorem spec_c3_counterexample :
    computeSizes (some "quantity") ["quantity", "price"] true [7, 7, 7] 2 5 20 = none ∧
    sizeOptValue (some "quantity") = SizeOption.dimRef "size" ∧
    sizeOptValue (some "quantity") ≠ SizeOption.fixed 10 ∧
    sizeOptValue none = SizeOption.fixed 10 := by
  refine ⟨?_, rfl, by decide, rfl⟩
  have h77 : ¬ seriesMin [(7 : ℚ), 7, 7] < seriesMax [(7 : ℚ), 7, 7] := by decide
  simp [computeSizes, h77]

/-- C3 (amended): when a numeric size column is selected and all of its
values over the plotted rows are equal (max == min), `create_plot` skips the
size normalization step entirely, so no division by zero can occur and no
per-point sizes are computed; however the plot options still reference the
`size` dimension rather than falling back to the fixed default size (the
fixed size 10 applies only when no size column is selected). -/
theorem spec_c3_no_div_by_zero (c : String) (cols : List String) (vals : List ℚ)
    (g minS maxS : ℝ) (h : seriesMin vals = seriesMax vals) :
    computeSizes (some c) cols true vals g minS maxS = none ∧
    sizeOptValue (some c) = SizeOption.dimRef "size" ∧
    sizeOptValue none = SizeOption.fixed 10 := by
  refine ⟨?_, rfl, rfl⟩
  by_cases hc : c ∈ cols
  · simp [computeSizes, hc, h]
  · simp [computeSizes, hc]

/-- Witness for C3 (amended) on a constant size column. -/
theorem spec_c3_witness :
    seriesMin [(3 : ℚ), 3] = seriesMax [(3 : ℚ), 3] ∧
    (computeSizes (some "quantity") ["quantity"] true [(3 : ℚ), 3] 2 5 20 = none ∧
      sizeOptValue (some "quantity") = SizeOption.dimRef "size" ∧
      sizeOptValue none = SizeOption.fixed 10) :=
  ⟨by decide, spec_c3_no_div_by_zero "quantity" ["quantity"] [(3 : ℚ), 3] 2 5 20 (by decide)⟩

/-- C4: when the size-column values over the current view are not all equal,
`create_plot` maps each value v to
`min_size + ((v - min)/(max - min)) ** gamma * (max_size - min_size)`
(min/max taken over the current view), and for any gamma > 0 and
max_size > min_size this assignment strictly preserves the order of
distinct size values within the view. -/
theorem spec_c4_size_rank_order (c : String) (cols : List String) (vals : List ℚ)
    (g minS maxS : ℝ) (v1 v2 : ℚ) (hc : c ∈ cols)
    (hmm : seriesMin vals < seriesMax vals) (hg : 0 < g) (hs : minS < maxS)
    (h1 : seriesMin vals ≤ v1) (h12 : v1 < v2) (h2 : v2 ≤ seriesMax vals) :
    computeSizes (some c) cols true vals g minS maxS =
      some (vals.map (sizeFormula (seriesMin vals) (seriesMax vals) g minS maxS)) ∧
    sizeFormula (seriesMin vals) (seriesMax vals) g minS maxS v1 <
      sizeFormula (seriesMin vals) (seriesMax vals) g minS maxS v2 := by
  constructor
  · simp [computeSizes, hc, hmm]
  · have hmr : ((seriesMin vals : ℚ) : ℝ) < ((seriesMax vals : ℚ) : ℝ) := by
      exact_mod_cast hmm
    have hden : (0 : ℝ) < ((seriesMax vals : ℚ) : ℝ) - ((seriesMin vals : ℚ) : ℝ) :=
      sub_pos.mpr hmr
    have h1r : ((seriesMin vals : ℚ) : ℝ) ≤ ((v1 : ℚ) : ℝ) := by exact_mod_cast h1
    have h12r : ((v1 : ℚ) : ℝ) < ((v2 : ℚ) : ℝ) := by exact_mod_cast h12
    have hnum1 : (0 : ℝ) ≤ ((v1 : ℚ) : ℝ) - ((seriesMin vals : ℚ) : ℝ) :=
      sub_nonneg.mpr h1r
    have hlt :
        (((v1 : ℚ) : ℝ) - ((seriesMin vals : ℚ) : ℝ)) /
            (((seriesMax vals : ℚ) : ℝ) - ((seriesMin vals : ℚ) : ℝ)) <
          (((v2 : ℚ) : ℝ) - ((seriesMin vals : ℚ) : ℝ)) /
            (((seriesMax vals : ℚ) : ℝ) - ((seriesMin vals : ℚ) : ℝ)) :=
      (div_lt_div_iff_of_pos_right hden).mpr (by linarith)
    have h0 :
        (0 : ℝ) ≤ (((v1 : ℚ) : ℝ) - ((seriesMin vals : ℚ) : ℝ)) /
          (((seriesMax vals : ℚ) : ℝ) - ((seriesMin vals : ℚ) : ℝ)) :=
      div_nonneg hnum1 hden.le
    have hr := Real.rpow_lt_rpow h0 hlt hg
    have hmul := mul_lt_mul_of_pos_right hr (sub_pos.mpr hs)
    exact add_lt_add_left hmul minS

/-- Witness for C4 at view values {0, 1} with gamma 1 and size range [0, 1]. -/
theorem spec_c4_witness :
    computeSizes (some "quantity") ["quantity"] true [(0 : ℚ), 1] 1 0 1 =
      some (([(0 : ℚ), 1]).map
        (sizeFormula (seriesMin [(0 : ℚ), 1]) (seriesMax [(0 : ℚ), 1]) 1 0 1)) ∧
    sizeFormula (seriesMin [(0 : ℚ), 1]) (seriesMax [(0 : ℚ), 1]) 1 0 1 0 <
      sizeFormula (seriesMin [(0 : ℚ), 1]) (seriesMax [(0 : ℚ), 1]) 1 0 1 1 :=
  spec_c4_size_rank_order "quantity" ["quantity"] [(0 : ℚ), 1] 1 0 1 0 1
    (by decide) (by decide) zero_lt_one zero_lt_one (by decide) (by decide) (by decide)

/-- C5 counterexample: on the generated 1000-row dataset, the text filter
`Product_00[0-9]` on `product_name` does NOT yield 10 rows: `str.contains`
performs substring search, so every name starting `Product_00` followed by
any digit matches - which includes all of `Product_0000`..`Product_0099`. -/
theorem spec_c5_counterexample :
    (applyFilters [("product_name", FilterKind.text "Product_00[0-9]")]
      (exampleRows 1000)).length ≠ 10 := by
  decide

/-- C5 (amended): on the generated 1000-row example dataset, the text filter
`Product_00[0-9]` on `product_name` yields exactly 100 matching rows, namely
the rows at indices 0 through 99. -/
theorem spec_c5_regression_scenario :
    applyFilters [("product_name", FilterKind.text "Product_00[0-9]")] (exampleRows 1000) =
      (exampleRows 1000).take 100 ∧
    ((exampleRows 1000).take 100).length = 100 := by
  constructor <;> decide
